import Mathlib

/-!
Shallow embedding of the EcoHero+ backend (src/main.py, src/schemas.py):
the wallet ledger engine (balance computation, redemption gating), challenge
submission, user creation, challenge seeding and listing.

The backing document store (`database.py`, not part of src/) is modelled from
the spec as four in-memory collections of (id, document) pairs; `create_document`
appends one document and returns a generated id, `get_documents` filters with a
result cap.

Python floats (`points / 1000.0` compared against `10.0`, `round(·, 2)`) are
modelled over ℚ: for the comparisons the handlers make (a quotient of an integer
by 1000 against the representable constant 10.0) double-precision evaluation
agrees with exact rational evaluation, and rounding ties are modelled half-up.
-/

namespace EcoHero

/-- Validity of a `bson.ObjectId` string argument: exactly 24 hexadecimal
characters (what `ObjectId(s)` accepts for a string; anything else raises). -/
def isValidObjectId (s : String) : Bool :=
  s.length == 24 &&
    s.toList.all (fun c =>
      (('0' ≤ c && c ≤ '9') || ('a' ≤ c && c ≤ 'f') || ('A' ≤ c && c ≤ 'F')))

/-- schemas.User — collection "user". -/
structure UserDoc where
  name : String
  age : Int
  email : Option String
  parent_email : Option String
  is_parent_approved : Bool
  deriving DecidableEq

/-- schemas.Challenge — collection "challenge". -/
structure ChallengeDoc where
  title : String
  description : String
  audience : String
  points : Int
  is_active : Bool
  deriving DecidableEq

/-- schemas.Submission — collection "submission". -/
structure SubmissionDoc where
  user_id : String
  challenge_id : String
  proof_url : Option String
  notes : Option String
  points_awarded : Int
  status : String
  deriving DecidableEq

/-- schemas.WalletTransaction — collection "wallettransaction". -/
structure WalletTransactionDoc where
  user_id : String
  type : String
  points : Int
  note : Option String
  deriving DecidableEq

/-- The document store: four collections of (generated id, document) pairs,
plus the id-generation counter. Modelled from the spec: the store is a keyed
collection-of-documents service; `database.py` itself is not under src/. -/
structure Store where
  users : List (String × UserDoc)
  challenges : List (String × ChallengeDoc)
  submissions : List (String × SubmissionDoc)
  wallettransactions : List (String × WalletTransactionDoc)
  nextId : Nat
  deriving DecidableEq

/-- Generated document id (opaque string unique per counter value). -/
def genId (n : Nat) : String := "oid" ++ toString n

/-- Modelled from the spec: `create_document` (database.py, missing from src/)
for the "user" collection — insert one document, return the generated id. -/
def insertUser (s : Store) (d : UserDoc) : String × Store :=
  (genId s.nextId,
    { s with users := s.users ++ [(genId s.nextId, d)], nextId := s.nextId + 1 })

/-- Modelled from the spec: `create_document` for the "challenge" collection. -/
def insertChallenge (s : Store) (d : ChallengeDoc) : String × Store :=
  (genId s.nextId,
    { s with challenges := s.challenges ++ [(genId s.nextId, d)],
             nextId := s.nextId + 1 })

/-- Modelled from the spec: `create_document` for the "submission" collection. -/
def insertSubmission (s : Store) (d : SubmissionDoc) : String × Store :=
  (genId s.nextId,
    { s with submissions := s.submissions ++ [(genId s.nextId, d)],
             nextId := s.nextId + 1 })

/-- Modelled from the spec: `create_document` for the "wallettransaction"
collection. -/
def insertWalletTransaction (s : Store) (d : WalletTransactionDoc) : String × Store :=
  (genId s.nextId,
    { s with wallettransactions := s.wallettransactions ++ [(genId s.nextId, d)],
             nextId := s.nextId + 1 })

/-- `find_one({"_id": ObjectId(i)})`: look a document up by its id. -/
def findById {α : Type} (l : List (String × α)) (i : String) : Option α :=
  (l.find? (fun p => p.1 == i)).map (fun p => p.2)

/-- Modelled from the spec: `get_documents` (database.py, missing from src/) —
find-many-by-filter with a result-count cap. -/
def get_documents {α : Type} (l : List (String × α)) (q : α → Bool)
    (limit : Nat) : List (String × α) :=
  (l.filter (fun p => q p.2)).take limit

/-- An `HTTPException` raised by a handler: status code and detail string. -/
structure HTTPError where
  status_code : Nat
  detail : String
  deriving DecidableEq

/-- `earned` in get_wallet: sum of `points_awarded` over the user's submissions
with status "approved". -/
def earnedPoints (s : Store) (uid : String) : Int :=
  ((s.submissions.filter
      (fun p => p.2.user_id == uid && p.2.status == "approved")).map
    (fun p => p.2.points_awarded)).sum

/-- `redeemed` in get_wallet: sum of `points` over the user's wallet
transactions with type "redeem". -/
def redeemedPoints (s : Store) (uid : String) : Int :=
  ((s.wallettransactions.filter
      (fun p => p.2.user_id == uid && p.2.type == "redeem")).map
    (fun p => p.2.points)).sum

/-- `balance = max(0, earned - redeemed)` in get_wallet. -/
def balanceOf (s : Store) (uid : String) : Int :=
  max 0 (earnedPoints s uid - redeemedPoints s uid)

/-- `round(x, 2)`: rounding to two decimal places, over ℚ. -/
def round2 (q : ℚ) : ℚ := (round (q * 100) : ℤ) / 100

/-- The JSON body returned by GET /wallet/{user_id}. -/
structure WalletResp where
  user_id : String
  points : Int
  dollars : ℚ
  can_withdraw : Bool
  min_withdrawal_dollars : ℚ
  deriving DecidableEq

/-- GET /wallet/{user_id} (main.py `get_wallet`): validate the id, then return
the derived balance; read-only. -/
def get_wallet (s : Store) (uid : String) : Except HTTPError WalletResp :=
  if isValidObjectId uid then
    let balance := balanceOf s uid
    let dollars : ℚ := (balance : ℚ) / 1000
    .ok { user_id := uid, points := balance, dollars := round2 dollars,
          can_withdraw := decide (dollars ≥ 10), min_withdrawal_dollars := 10 }
  else
    .error { status_code := 400, detail := "Invalid user id" }

/-- The body of POST /redeem. -/
structure RedeemRequest where
  user_id : String
  points : Int
  for_under18 : Bool
  deriving DecidableEq

/-- The JSON body returned by POST /redeem on success. -/
structure RedeemResp where
  id : String
  status : String
  deriving DecidableEq

/-- POST /redeem (main.py `redeem_points`): recompute the wallet, reject
non-positive or excessive amounts, enforce the $10 minimum on the requested
points, then append one "redeem" transaction. An error leaves the store
unchanged. -/
def redeem_points (s : Store) (p : RedeemRequest) :
    Except HTTPError RedeemResp × Store :=
  match get_wallet s p.user_id with
  | .error e => (.error e, s)
  | .ok wallet =>
    if p.points ≤ 0 ∨ wallet.points < p.points then
      (.error { status_code := 400, detail := "Invalid points amount" }, s)
    else if (p.points : ℚ) / 1000 < 10 then
      (.error { status_code := 400, detail := "Minimum withdrawal is $10" }, s)
    else
      let txn : WalletTransactionDoc :=
        { user_id := p.user_id, type := "redeem", points := p.points,
          note := some (if p.for_under18 then "Parent-approved withdrawal"
                        else "Withdrawal") }
      let r := insertWalletTransaction s txn
      (.ok { id := r.1, status := "pending_payout" }, r.2)

/-- The body of POST /submit. -/
structure SubmitRequest where
  user_id : String
  challenge_id : String
  notes : Option String
  deriving DecidableEq

/-- The JSON body returned by POST /submit on success. -/
structure SubmitResp where
  id : String
  points_awarded : Int
  deriving DecidableEq

/-- POST /submit (main.py `submit_challenge`): parse both ids (400 on failure),
look both records up (404 when either is missing), then create the submission
with the challenge's points and status "approved". An error leaves the store
unchanged. -/
def submit_challenge (s : Store) (p : SubmitRequest) :
    Except HTTPError SubmitResp × Store :=
  if isValidObjectId p.user_id && isValidObjectId p.challenge_id then
    match findById s.users p.user_id, findById s.challenges p.challenge_id with
    | some _, some ch =>
      let sub : SubmissionDoc :=
        { user_id := p.user_id, challenge_id := p.challenge_id,
          proof_url := none, notes := p.notes,
          points_awarded := ch.points, status := "approved" }
      let r := insertSubmission s sub
      (.ok { id := r.1, points_awarded := ch.points }, r.2)
    | _, _ =>
      (.error { status_code := 404, detail := "User or challenge not found" }, s)
  else
    (.error { status_code := 400, detail := "Invalid ids provided" }, s)

/-- POST /users (main.py `create_user`): reject an under-18 payload without a
parent email, otherwise insert the user and return the new id. -/
def create_user (s : Store) (p : UserDoc) : Except HTTPError String × Store :=
  if p.age < 18 ∧ p.parent_email = none then
    (.error { status_code := 400,
              detail := "Parent email required for under-18 users" }, s)
  else
    let r := insertUser s p
    (.ok r.1, r.2)

/-- The six fixed default challenges of POST /seed. -/
def defaultChallenges : List ChallengeDoc :=
  [ { title := "Draw a poster about saving trees",
      description := "Create a colorful poster that shows how trees help the planet.",
      audience := "kid", points := 100, is_active := true },
    { title := "Water a plant",
      description := "Water a plant at home or school and take a photo.",
      audience := "kid", points := 100, is_active := true },
    { title := "Switch off lights before bed",
      description := "Make it a habit to switch off unnecessary lights.",
      audience := "kid", points := 50, is_active := true },
    { title := "Plant a tree",
      description := "Plant a tree in your community or backyard.",
      audience := "adult", points := 1000, is_active := true },
    { title := "Recycle bottles",
      description := "Recycle at least 10 plastic or glass bottles.",
      audience := "adult", points := 500, is_active := true },
    { title := "Use bicycle/public transport",
      description := "Choose a bike or public transport instead of a car for a trip.",
      audience := "adult", points := 300, is_active := true } ]

/-- The JSON body returned by POST /seed. -/
structure SeedResp where
  status : String
  seeded : Bool
  count : Nat
  deriving DecidableEq

/-- POST /seed (main.py `seed_challenges`): when the challenge collection is
non-empty return without writing; otherwise insert the six defaults. -/
def seed_challenges (s : Store) : SeedResp × Store :=
  let existing := s.challenges.length
  if existing > 0 then
    ({ status := "ok", seeded := false, count := existing }, s)
  else
    let s2 := defaultChallenges.foldl (fun st c => (insertChallenge st c).2) s
    ({ status := "ok", seeded := true, count := defaultChallenges.length }, s2)

/-- GET /challenges (main.py `list_challenges`): filter on `is_active`, and on
`audience` only when the query value is exactly "kid" or "adult"; capped at
100 results. -/
def list_challenges (s : Store) (audience : Option String) :
    List (String × ChallengeDoc) :=
  let q : ChallengeDoc → Bool :=
    match audience with
    | some a =>
      if a == "kid" || a == "adult" then
        fun c => c.is_active && c.audience == a
      else
        fun c => c.is_active
    | none => fun c => c.is_active
  get_documents s.challenges q 100

end EcoHero

namespace EcoHero

/-- On a syntactically valid id, get_wallet returns the derived wallet record. -/
theorem get_wallet_valid (s : Store) (uid : String)
    (h : isValidObjectId uid = true) :
    get_wallet s uid =
      .ok { user_id := uid, points := balanceOf s uid,
            dollars := round2 ((balanceOf s uid : ℚ) / 1000),
            can_withdraw := decide ((balanceOf s uid : ℚ) / 1000 ≥ 10),
            min_withdrawal_dollars := 10 } := by
  simp [get_wallet, h]

/-- C1: for every valid user id and store state, GET /wallet returns
balance = max 0 (earned - redeemed), where earned sums `points_awarded` over
the user's approved submissions and redeemed sums `points` over the user's
"redeem" wallet transactions; the balance is never negative. -/
theorem wallet_balance_spec (s : Store) (uid : String)
    (h : isValidObjectId uid = true) :
    ∃ r : WalletResp, get_wallet s uid = .ok r ∧
      r.points = max 0 (earnedPoints s uid - redeemedPoints s uid) ∧
      0 ≤ r.points :=
  ⟨_, get_wallet_valid s uid h, rfl, le_max_left _ _⟩

def uidA : String := "0123456789abcdef01234567"

def store0 : Store :=
  { users := [], challenges := [], submissions := [],
    wallettransactions := [], nextId := 0 }

/-- C1 witness: the balance formula evaluated at a concrete id and store. -/
theorem wallet_balance_spec_witness :
    ∃ r : WalletResp, get_wallet store0 uidA = .ok r ∧
      r.points = max 0 (earnedPoints store0 uidA - redeemedPoints store0 uidA) ∧
      0 ≤ r.points :=
  wallet_balance_spec store0 uidA (by decide)

end EcoHero

namespace EcoHero

/-- C2: the wallet response derives dollars = balance / 1000 rounded to two
decimal places and can_withdraw = (balance / 1000 >= 10); a user with no
approved submissions and no redeem transactions has balance 0 and
can_withdraw = false. -/
theorem wallet_derived_fields (s : Store) (uid : String)
    (h : isValidObjectId uid = true) :
    ∃ r : WalletResp, get_wallet s uid = .ok r ∧
      r.dollars = round2 ((r.points : ℚ) / 1000) ∧
      (r.can_withdraw = true ↔ (r.points : ℚ) / 1000 ≥ 10) ∧
      ((s.submissions.filter
          (fun p => p.2.user_id == uid && p.2.status == "approved")) = [] →
       (s.wallettransactions.filter
          (fun p => p.2.user_id == uid && p.2.type == "redeem")) = [] →
       r.points = 0 ∧ r.can_withdraw = false) := by
  refine ⟨_, get_wallet_valid s uid h, rfl, ?_, ?_⟩
  · simp
  · intro h1 h2
    have hb : balanceOf s uid = 0 := by
      simp [balanceOf, earnedPoints, redeemedPoints, h1, h2]
    refine ⟨hb, ?_⟩
    show decide ((balanceOf s uid : ℚ) / 1000 ≥ 10) = false
    rw [hb]
    norm_num

/-- C2 witness: the derived fields evaluated at a concrete id and the empty
store, where the no-activity consequence applies. -/
theorem wallet_derived_fields_witness :
    ∃ r : WalletResp, get_wallet store0 uidA = .ok r ∧
      r.dollars = round2 ((r.points : ℚ) / 1000) ∧
      (r.can_withdraw = true ↔ (r.points : ℚ) / 1000 ≥ 10) ∧
      ((store0.submissions.filter
          (fun p => p.2.user_id == uidA && p.2.status == "approved")) = [] →
       (store0.wallettransactions.filter
          (fun p => p.2.user_id == uidA && p.2.type == "redeem")) = [] →
       r.points = 0 ∧ r.can_withdraw = false) :=
  wallet_derived_fields store0 uidA (by decide)

end EcoHero

namespace EcoHero

/-- Inserting a wallet transaction leaves the submission aggregate unchanged. -/
theorem earnedPoints_insertTxn (s : Store) (d : WalletTransactionDoc) (uid : String) :
    earnedPoints (insertWalletTransaction s d).2 uid = earnedPoints s uid := rfl

/-- Inserting a matching "redeem" transaction adds its points to the
redeemed aggregate. -/
theorem redeemedPoints_insertTxn (s : Store) (d : WalletTransactionDoc) (uid : String)
    (hu : d.user_id = uid) (ht : d.type = "redeem") :
    redeemedPoints (insertWalletTransaction s d).2 uid =
      redeemedPoints s uid + d.points := by
  simp [redeemedPoints, insertWalletTransaction, List.filter_append, hu, ht]

/-- Appending a covered "redeem" transaction debits the balance exactly. -/
theorem balanceOf_insertTxn (s : Store) (d : WalletTransactionDoc) (uid : String)
    (hu : d.user_id = uid) (ht : d.type = "redeem")
    (hpos : 0 < d.points) (hle : d.points ≤ balanceOf s uid) :
    balanceOf (insertWalletTransaction s d).2 uid = balanceOf s uid - d.points := by
  have h1 := earnedPoints_insertTxn s d uid
  have h2 := redeemedPoints_insertTxn s d uid hu ht
  unfold balanceOf at hle ⊢
  rw [h1, h2]
  omega

/-- C3: a redeem request with positive points within the computed balance and
meeting the $10 minimum succeeds: it appends exactly one "redeem" transaction
of the requested quantity, returns status "pending_payout", and the
subsequently computed balance drops by exactly the requested points. -/
theorem redeem_success (s : Store) (p : RedeemRequest)
    (hid : isValidObjectId p.user_id = true)
    (hpos : 0 < p.points)
    (hle : p.points ≤ balanceOf s p.user_id)
    (hmin : (10 : ℚ) ≤ (p.points : ℚ) / 1000) :
    ∃ (resp : RedeemResp) (s2 : Store) (note : Option String),
      redeem_points s p = (.ok resp, s2) ∧
      resp.status = "pending_payout" ∧
      s2.wallettransactions = s.wallettransactions ++
        [(resp.id, { user_id := p.user_id, type := "redeem",
                     points := p.points, note := note })] ∧
      balanceOf s2 p.user_id = balanceOf s p.user_id - p.points := by
  have hcond : ¬(p.points ≤ 0 ∨ balanceOf s p.user_id < p.points) := by omega
  have hstep : redeem_points s p =
      (.ok { id := genId s.nextId, status := "pending_payout" },
        (insertWalletTransaction s
          { user_id := p.user_id, type := "redeem", points := p.points,
            note := some (if p.for_under18 then "Parent-approved withdrawal"
                          else "Withdrawal") }).2) := by
    simp [redeem_points, get_wallet_valid s p.user_id hid, hcond, not_lt.mpr hmin,
          insertWalletTransaction]
  refine ⟨_, _,
    some (if p.for_under18 then "Parent-approved withdrawal" else "Withdrawal"),
    hstep, rfl, by simp [insertWalletTransaction], ?_⟩
  exact balanceOf_insertTxn s _ p.user_id rfl rfl hpos hle

def cidA : String := "abcdefabcdefabcdefabcdef"

def storeB : Store :=
  { users := [], challenges := [],
    submissions :=
      [(genId 1,
        { user_id := uidA, challenge_id := cidA, proof_url := none,
          notes := none, points_awarded := 12000, status := "approved" })],
    wallettransactions := [], nextId := 2 }

def reqB : RedeemRequest := { user_id := uidA, points := 10000, for_under18 := false }

/-- C3 witness: redeeming 10000 points against a 12000-point balance at a
concrete store. -/
theorem redeem_success_witness :
    ∃ (resp : RedeemResp) (s2 : Store) (note : Option String),
      redeem_points storeB reqB = (.ok resp, s2) ∧
      resp.status = "pending_payout" ∧
      s2.wallettransactions = storeB.wallettransactions ++
        [(resp.id, { user_id := reqB.user_id, type := "redeem",
                     points := reqB.points, note := note })] ∧
      balanceOf s2 reqB.user_id = balanceOf storeB reqB.user_id - reqB.points :=
  redeem_success storeB reqB (by decide) (by decide) (by decide) (by norm_num [reqB])

end EcoHero

namespace EcoHero

/-- A non-positive or excessive amount is rejected with the invalid-amount
error, leaving the store unchanged. -/
theorem redeem_invalid_amount (s : Store) (p : RedeemRequest)
    (hid : isValidObjectId p.user_id = true)
    (h : p.points ≤ 0 ∨ balanceOf s p.user_id < p.points) :
    redeem_points s p =
      (.error { status_code := 400, detail := "Invalid points amount" }, s) := by
  simp only [redeem_points, get_wallet_valid s p.user_id hid]
  rw [if_pos h]

/-- A request below the $10 minimum (and not otherwise invalid) is rejected
with the minimum-withdrawal error, leaving the store unchanged. -/
theorem redeem_below_min (s : Store) (p : RedeemRequest)
    (hid : isValidObjectId p.user_id = true)
    (h1 : ¬(p.points ≤ 0 ∨ balanceOf s p.user_id < p.points))
    (h2 : (p.points : ℚ) / 1000 < 10) :
    redeem_points s p =
      (.error { status_code := 400, detail := "Minimum withdrawal is $10" }, s) := by
  simp only [redeem_points, get_wallet_valid s p.user_id hid]
  rw [if_neg h1, if_pos h2]

/-- When no rejection applies, redeem appends the transaction and succeeds. -/
theorem redeem_ok_shape (s : Store) (p : RedeemRequest)
    (hid : isValidObjectId p.user_id = true)
    (h1 : ¬(p.points ≤ 0 ∨ balanceOf s p.user_id < p.points))
    (h2 : ¬((p.points : ℚ) / 1000 < 10)) :
    redeem_points s p =
      (.ok { id := genId s.nextId, status := "pending_payout" },
        (insertWalletTransaction s
          { user_id := p.user_id, type := "redeem", points := p.points,
            note := some (if p.for_under18 then "Parent-approved withdrawal"
                          else "Withdrawal") }).2) := by
  simp only [redeem_points, get_wallet_valid s p.user_id hid]
  rw [if_neg h1, if_neg h2]
  rfl

/-- C4: with a valid user id, a redeem request fails exactly when the amount
is non-positive, exceeds the computed balance, or is below the $10 minimum on
the requested points; every rejection leaves the store unchanged (no
transaction is appended). -/
theorem redeem_reject_iff (s : Store) (p : RedeemRequest)
    (hid : isValidObjectId p.user_id = true) :
    ((∃ e : HTTPError, (redeem_points s p).1 = .error e) ↔
      (p.points ≤ 0 ∨ balanceOf s p.user_id < p.points ∨
        (p.points : ℚ) / 1000 < 10)) ∧
    (∀ e : HTTPError, (redeem_points s p).1 = .error e →
      (redeem_points s p).2 = s) := by
  by_cases h1 : p.points ≤ 0 ∨ balanceOf s p.user_id < p.points
  · rw [redeem_invalid_amount s p hid h1]
    refine ⟨⟨fun _ => ?_, fun _ => ⟨_, rfl⟩⟩, fun e _ => rfl⟩
    rcases h1 with h | h
    exacts [Or.inl h, Or.inr (Or.inl h)]
  · by_cases h2 : (p.points : ℚ) / 1000 < 10
    · rw [redeem_below_min s p hid h1 h2]
      exact ⟨⟨fun _ => Or.inr (Or.inr h2), fun _ => ⟨_, rfl⟩⟩, fun e _ => rfl⟩
    · rw [redeem_ok_shape s p hid h1 h2]
      push_neg at h1
      refine ⟨⟨?_, ?_⟩, ?_⟩
      · rintro ⟨e, he⟩
        exact absurd he (by simp)
      · intro h
        rcases h with h | h | h
        · exact absurd h (by omega)
        · exact absurd h (by omega)
        · exact absurd h h2
      · intro e he
        exact absurd he (by simp)

def reqC : RedeemRequest := { user_id := uidA, points := 20000, for_under18 := false }

/-- C4 witness: the failure characterisation evaluated at a concrete store and
a request exceeding the balance. -/
theorem redeem_reject_iff_witness :
    ((∃ e : HTTPError, (redeem_points storeB reqC).1 = .error e) ↔
      (reqC.points ≤ 0 ∨ balanceOf storeB reqC.user_id < reqC.points ∨
        (reqC.points : ℚ) / 1000 < 10)) ∧
    (∀ e : HTTPError, (redeem_points storeB reqC).1 = .error e →
      (redeem_points storeB reqC).2 = storeB) :=
  redeem_reject_iff storeB reqC (by decide)

end EcoHero

namespace EcoHero

def reqNeg : RedeemRequest := { user_id := uidA, points := -5, for_under18 := false }

/-- C5 counterexample: at a concrete store with balance 12000, a request for
20000 points (exceeding the balance) is rejected with exactly the same error
value (400, "Invalid points amount") as a request for -5 points (non-positive
amount) — the rejection is not distinct from the validation error. -/
theorem redeem_exceed_error_counterexample :
    (redeem_points storeB reqC).1 =
      .error { status_code := 400, detail := "Invalid points amount" } ∧
    (redeem_points storeB reqNeg).1 =
      .error { status_code := 400, detail := "Invalid points amount" } ∧
    (redeem_points storeB reqC).1 = (redeem_points storeB reqNeg).1 :=
  ⟨rfl, rfl, rfl⟩

/-- C5 amended: a redeem request exceeding the computed balance is rejected
before any write with the invalid-amount error (400, "Invalid points amount"),
the same error used for a non-positive amount, not a distinct policy error. -/
theorem redeem_exceed_same_error (s : Store) (p q : RedeemRequest)
    (hp : isValidObjectId p.user_id = true)
    (hq : isValidObjectId q.user_id = true)
    (hgt : balanceOf s p.user_id < p.points)
    (hq0 : q.points ≤ 0) :
    (redeem_points s p).1 =
      .error { status_code := 400, detail := "Invalid points amount" } ∧
    (redeem_points s p).1 = (redeem_points s q).1 ∧
    (redeem_points s p).2 = s := by
  have h1 := redeem_invalid_amount s p hp (Or.inr hgt)
  have h2 := redeem_invalid_amount s q hq (Or.inl hq0)
  rw [h1, h2]
  exact ⟨rfl, rfl, rfl⟩

/-- C5 witness: the amended statement evaluated at a concrete store, an
exceeding request and a non-positive request. -/
theorem redeem_exceed_same_error_witness :
    (redeem_points storeB reqC).1 =
      .error { status_code := 400, detail := "Invalid points amount" } ∧
    (redeem_points storeB reqC).1 = (redeem_points storeB reqNeg).1 ∧
    (redeem_points storeB reqC).2 = storeB :=
  redeem_exceed_same_error storeB reqC reqNeg (by decide) (by decide)
    (by decide) (by decide)

/-- C6: a submit request whose user id and challenge id both parse and
reference existing records creates one submission whose points_awarded is the
challenge's configured point value at submission time, with status "approved",
and returns the submission id together with the points awarded. -/
theorem submit_success (s : Store) (p : SubmitRequest) (u : UserDoc) (ch : ChallengeDoc)
    (hu : isValidObjectId p.user_id = true)
    (hc : isValidObjectId p.challenge_id = true)
    (hfu : findById s.users p.user_id = some u)
    (hfc : findById s.challenges p.challenge_id = some ch) :
    ∃ (resp : SubmitResp) (s2 : Store),
      submit_challenge s p = (.ok resp, s2) ∧
      resp.points_awarded = ch.points ∧
      s2.submissions = s.submissions ++
        [(resp.id, { user_id := p.user_id, challenge_id := p.challenge_id,
                     proof_url := none, notes := p.notes,
                     points_awarded := ch.points, status := "approved" })] := by
  refine ⟨{ id := genId s.nextId, points_awarded := ch.points },
    (insertSubmission s
      { user_id := p.user_id, challenge_id := p.challenge_id, proof_url := none,
        notes := p.notes, points_awarded := ch.points, status := "approved" }).2,
    ?_, rfl, ?_⟩
  · simp [submit_challenge, hu, hc, hfu, hfc, insertSubmission]
  · simp [insertSubmission]

def userA : UserDoc :=
  { name := "Ann", age := 30, email := none, parent_email := none,
    is_parent_approved := false }

def chalA : ChallengeDoc :=
  { title := "Plant a tree",
    description := "Plant a tree in your community or backyard.",
    audience := "adult", points := 1000, is_active := true }

def storeC : Store :=
  { users := [(uidA, userA)], challenges := [(cidA, chalA)],
    submissions := [], wallettransactions := [], nextId := 3 }

def subReqA : SubmitRequest :=
  { user_id := uidA, challenge_id := cidA, notes := none }

/-- C6 witness: submitting an existing challenge for an existing user at a
concrete store awards the challenge's 1000 points. -/
theorem submit_success_witness :
    ∃ (resp : SubmitResp) (s2 : Store),
      submit_challenge storeC subReqA = (.ok resp, s2) ∧
      resp.points_awarded = chalA.points ∧
      s2.submissions = storeC.submissions ++
        [(resp.id, { user_id := subReqA.user_id,
                     challenge_id := subReqA.challenge_id,
                     proof_url := none, notes := subReqA.notes,
                     points_awarded := chalA.points, status := "approved" })] :=
  submit_success storeC subReqA userA chalA (by decide) (by decide)
    (by decide) (by decide)

end EcoHero

namespace EcoHero

/-- C7: with syntactically valid ids, a submit request referencing a missing
user or challenge is rejected with the 404 not-found error; with a malformed
id it is rejected with the 400 validation error; the two errors are distinct,
and the store is unchanged (no submission written) in both cases. -/
theorem submit_reject_distinct (s : Store) (p : SubmitRequest) :
    ((isValidObjectId p.user_id && isValidObjectId p.challenge_id) = true →
      (findById s.users p.user_id = none ∨
       findById s.challenges p.challenge_id = none) →
      submit_challenge s p =
        (.error { status_code := 404, detail := "User or challenge not found" }, s)) ∧
    ((isValidObjectId p.user_id && isValidObjectId p.challenge_id) = false →
      submit_challenge s p =
        (.error { status_code := 400, detail := "Invalid ids provided" }, s)) ∧
    ({ status_code := 404, detail := "User or challenge not found" } : HTTPError) ≠
      { status_code := 400, detail := "Invalid ids provided" } := by
  refine ⟨?_, ?_, by decide⟩
  · intro hv hmiss
    rcases hmiss with h | h
    · cases hx : findById s.challenges p.challenge_id <;>
        simp [submit_challenge, hv, h, hx]
    · cases hx : findById s.users p.user_id <;>
        simp [submit_challenge, hv, h, hx]
  · intro hv
    simp [submit_challenge, hv]

def cidB : String := "ffffffffffffffffffffffff"

def subReqMiss : SubmitRequest :=
  { user_id := uidA, challenge_id := cidB, notes := none }

def subReqBad : SubmitRequest :=
  { user_id := "zzz", challenge_id := cidA, notes := none }

/-- C7 witness: a valid-but-missing challenge id yields the 404 error and a
malformed user id yields the 400 error, both leaving the concrete store
unchanged. -/
theorem submit_reject_distinct_witness :
    submit_challenge storeC subReqMiss =
      (.error { status_code := 404, detail := "User or challenge not found" },
        storeC) ∧
    submit_challenge storeC subReqBad =
      (.error { status_code := 400, detail := "Invalid ids provided" }, storeC) :=
  ⟨(submit_reject_distinct storeC subReqMiss).1 (by decide) (Or.inr (by decide)),
   (submit_reject_distinct storeC subReqBad).2.1 (by decide)⟩

/-- C8: creating a user aged under 18 without a parent email is rejected with
the validation error and no user is written; the same payload with a parent
email present succeeds, returning the new user id. -/
theorem create_user_parent_email_rule (s : Store) (p : UserDoc) :
    (p.age < 18 → p.parent_email = none →
      create_user s p =
        (.error { status_code := 400,
                  detail := "Parent email required for under-18 users" }, s)) ∧
    (p.parent_email ≠ none →
      ∃ (uid : String) (s2 : Store),
        create_user s p = (.ok uid, s2) ∧
        s2.users = s.users ++ [(uid, p)]) := by
  constructor
  · intro h1 h2
    simp [create_user, h1, h2]
  · intro h
    refine ⟨genId s.nextId, (insertUser s p).2, ?_, by simp [insertUser]⟩
    have : ¬(p.age < 18 ∧ p.parent_email = none) := fun hc => h hc.2
    simp [create_user, this, insertUser]

def kidNoEmail : UserDoc :=
  { name := "Kid", age := 15, email := none, parent_email := none,
    is_parent_approved := false }

def kidWithEmail : UserDoc :=
  { name := "Kid", age := 15, email := none,
    parent_email := some "parent@example.com", is_parent_approved := false }

/-- C8 witness: an age-15 payload without a parent email is rejected at a
concrete store; the same payload with a parent email is created. -/
theorem create_user_parent_email_rule_witness :
    create_user store0 kidNoEmail =
      (.error { status_code := 400,
                detail := "Parent email required for under-18 users" }, store0) ∧
    ∃ (uid : String) (s2 : Store),
      create_user store0 kidWithEmail = (.ok uid, s2) ∧
      s2.users = store0.users ++ [(uid, kidWithEmail)] :=
  ⟨(create_user_parent_email_rule store0 kidNoEmail).1 (by decide) rfl,
   (create_user_parent_email_rule store0 kidWithEmail).2 (by decide)⟩

end EcoHero

namespace EcoHero

/-- C9: seeding an empty challenge collection inserts exactly the six fixed
default challenges; seeding a non-empty collection changes nothing; running
seed twice in a row is a no-op on the store (idempotence). -/
theorem seed_idempotent (s : Store) :
    (s.challenges = [] →
      (seed_challenges s).2.challenges.map (fun q => q.2) = defaultChallenges ∧
      (seed_challenges s).2.challenges.length = 6 ∧
      (seed_challenges s).1.seeded = true) ∧
    (s.challenges ≠ [] →
      (seed_challenges s).2 = s ∧ (seed_challenges s).1.seeded = false) ∧
    (seed_challenges (seed_challenges s).2).2 = (seed_challenges s).2 := by
  refine ⟨?_, ?_, ?_⟩
  · intro h
    simp [seed_challenges, h, defaultChallenges, insertChallenge]
  · intro h
    have hl : s.challenges.length > 0 := List.length_pos.mpr h
    simp [seed_challenges, hl]
  · by_cases h : s.challenges = []
    · simp [seed_challenges, h, defaultChallenges, insertChallenge]
    · have hl : s.challenges.length > 0 := List.length_pos.mpr h
      simp [seed_challenges, hl]

/-- C9 witness: seeding the concrete empty store inserts the six defaults and
a second run is a no-op. -/
theorem seed_idempotent_witness :
    (seed_challenges store0).2.challenges.map (fun q => q.2) = defaultChallenges ∧
    (seed_challenges store0).1.seeded = true ∧
    (seed_challenges (seed_challenges store0).2).2 = (seed_challenges store0).2 :=
  ⟨((seed_idempotent store0).1 rfl).1, ((seed_idempotent store0).1 rfl).2.2,
   (seed_idempotent store0).2.2⟩

/-- C10: listing challenges returns only active ones; with audience "kid" or
"adult" only challenges tagged exactly that value (so never "all") are
returned; any other audience value, or none, ignores the filter and returns
all active challenges; results are capped at 100. -/
theorem list_challenges_spec (s : Store) (a : Option String) :
    (∀ x ∈ list_challenges s a, x.2.is_active = true) ∧
    ((a = some "kid" ∨ a = some "adult") →
      ∀ x ∈ list_challenges s a, some x.2.audience = a ∧ x.2.audience ≠ "all") ∧
    ((∀ v : String, a = some v → v ≠ "kid" ∧ v ≠ "adult") →
      list_challenges s a =
        (s.challenges.filter (fun q => q.2.is_active)).take 100) ∧
    (list_challenges s a).length ≤ 100 := by
  rcases a with _ | v
  · refine ⟨?_, ?_, fun _ => rfl, ?_⟩
    · intro x hx
      have hm := List.take_subset _ _ hx
      exact (List.mem_filter.mp hm).2
    · rintro (h | h) <;> exact Option.noConfusion h
    · exact List.length_take_le _ _
  · by_cases hb : (v == "kid" || v == "adult") = true
    · have hpred : list_challenges s (some v) =
          (s.challenges.filter
            (fun q => q.2.is_active && q.2.audience == v)).take 100 := by
        simp [list_challenges, get_documents, hb]
      refine ⟨?_, ?_, ?_, ?_⟩
      · intro x hx
        rw [hpred] at hx
        have hm := List.take_subset _ _ hx
        exact ((Bool.and_eq_true _ _).mp (List.mem_filter.mp hm).2).1
      · intro _ x hx
        rw [hpred] at hx
        have hm := List.take_subset _ _ hx
        have haud : x.2.audience = v :=
          eq_of_beq ((Bool.and_eq_true _ _).mp (List.mem_filter.mp hm).2).2
        constructor
        · rw [haud]
        · rw [haud]
          rcases Bool.or_eq_true_iff.mp hb with h | h
          · rw [eq_of_beq h]; decide
          · rw [eq_of_beq h]; decide
      · intro h
        rcases Bool.or_eq_true_iff.mp hb with hk | hk
        · exact absurd (eq_of_beq hk) (h v rfl).1
        · exact absurd (eq_of_beq hk) (h v rfl).2
      · rw [hpred]
        exact List.length_take_le _ _
    · have hpred : list_challenges s (some v) =
          (s.challenges.filter (fun q => q.2.is_active)).take 100 := by
        simp only [list_challenges, get_documents]
        rw [if_neg]
        simp [hb]
      refine ⟨?_, ?_, fun _ => hpred, ?_⟩
      · intro x hx
        rw [hpred] at hx
        have hm := List.take_subset _ _ hx
        exact (List.mem_filter.mp hm).2
      · rintro (h | h) <;> injection h with h <;> subst h <;> simp at hb
      · rw [hpred]
        exact List.length_take_le _ _

def storeD : Store :=
  { users := [],
    challenges :=
      [(genId 0, { title := "K", description := "K", audience := "kid",
                   points := 100, is_active := true }),
       (genId 1, { title := "A", description := "A", audience := "all",
                   points := 100, is_active := true }),
       (genId 2, { title := "D", description := "D", audience := "adult",
                   points := 100, is_active := false })],
    submissions := [], wallettransactions := [], nextId := 3 }

/-- C10 witness: the audience filter evaluated at a concrete store holding a
"kid", an "all" and an inactive "adult" challenge. -/
theorem list_challenges_spec_witness :
    (∀ x ∈ list_challenges storeD (some "kid"), x.2.is_active = true) ∧
    (∀ x ∈ list_challenges storeD (some "kid"),
      some x.2.audience = some "kid" ∧ x.2.audience ≠ "all") ∧
    list_challenges storeD (some "all") =
      (storeD.challenges.filter (fun q => q.2.is_active)).take 100 :=
  ⟨(list_challenges_spec storeD (some "kid")).1,
   (list_challenges_spec storeD (some "kid")).2.1 (Or.inl rfl),
   (list_challenges_spec storeD (some "all")).2.2.1
     (by intro v hv; cases hv; exact ⟨by decide, by decide⟩)⟩

end EcoHero
